import Mathlib

/-!
packer-builder-veertu-anka: configuration validation and the create-VM step.

A shallow embedding of `builder/anka/config.go` (`NewConfig`) and
`builder/anka/step_create_vm.go` (`StepCreateVM.Run`, `StepCreateVM.Cleanup`,
`randSeq`).

Conventions of the embedding.

* A Go `error` value is modelled by the text its `Error()` method returns, except
  for `*packer.MultiError`, which keeps the list of accumulated errors.
* A Go function returning `(T, error)` is a pair `T × Option String`: Go returns
  both values, and `Run` goes on using the first one after a failed `CreateDisk`.
* The state bag, the client call trace, the UI sink and the global random source
  are fields of an explicit `World` threaded through every step.
* A Go panic (failed type assertion, index out of range) is the result `none`.
* The methods of `Client` are defined outside these two files; they are fields
  of a `Client` record, each a function of the calls made so far and of its
  argument. The calls made so far grow with every call, so any sequence of
  answers is the behaviour of some such record.
* `math/rand` is a stream of raw values; `rand.Intn(n)` reduces the next one
  modulo `n`, so any sequence of draws below `n` comes from some stream.
-/

namespace Anka

/-! ## config.go -/

/-- The fields of `Config` that `NewConfig` and `StepCreateVM` touch; `CommType`
is `Comm.Type` of the embedded communicator configuration. -/
structure Config where
  CommType : String
  InstallerApp : String
  SourceVMName : String
  VMName : String
  DiskSize : String
  RamSize : String
  CPUCount : String
  deriving DecidableEq, Repr

/-- A Go `error` as `NewConfig` can return it: an ordinary error carrying its
message, or a `*packer.MultiError` carrying the accumulated errors. -/
inductive ConfigError where
  | plain (msg : String)
  | multi (Errors : List String)
  deriving DecidableEq, Repr

/-- The library call `packer.MultiErrorAppend(errs, e)` for an ordinary error `e`:
a nil accumulator becomes a fresh one, then `e` is appended to `Errors`. -/
def MultiErrorAppend (errs : Option (List String)) (e : String) : Option (List String) :=
  match errs with
  | none => some [e]
  | some es => some (es ++ [e])

/-- The whole of `NewConfig` after `config.Decode`: `decoded` is what `Decode` left
in `c` (or the error it returned). The result is the Go pair `(*Config, error)`. -/
def NewConfig (decoded : Except ConfigError Config) : Option Config × Option ConfigError :=
  match decoded with
  | .error err => (none, some err)
  | .ok c =>
    let errs : Option (List String) := none
    let c := if c.CommType = "" then { c with CommType := "anka" } else c
    let errs :=
      if c.InstallerApp = "" ∧ c.SourceVMName = "" then
        MultiErrorAppend errs "installer_app or source_vm_name must be specified"
      else errs
    let c := if c.DiskSize = "" then { c with DiskSize := "25G" } else c
    let c := if c.CPUCount = "" then { c with CPUCount := "2" } else c
    let c := if c.RamSize = "" then { c with RamSize := "2G" } else c
    match errs with
    | some es => if es.length > 0 then (none, some (.multi es)) else (some c, none)
    | none => (some c, none)

/-- The method `Error()`: the text of an ordinary error; for a
`*packer.MultiError` the packer library (`multi_error.go`, outside this
repository) renders a count line, an empty line, and one bullet per accumulated
error. -/
def ConfigError.Error : ConfigError → String
  | .plain msg => msg
  | .multi es =>
    toString es.length ++ " error(s) occurred:\n\n" ++
      String.intercalate "\n" (es.map fun e => "* " ++ e)

/-- The text `msg` contains `field` as a contiguous piece. -/
def Mentions (msg field : String) : Prop :=
  ∃ before after : String, msg = before ++ field ++ after

/-! ## step_create_vm.go: data -/

/-- The result of a step: `multistep.ActionContinue` or `multistep.ActionHalt`. -/
inductive StepAction where
  | ActionContinue
  | ActionHalt
  deriving DecidableEq, Repr

structure CreateDiskParams where
  DiskSize : String
  InstallerApp : String
  deriving DecidableEq, Repr

structure CreateParams where
  ImageID : String
  RamSize : String
  CPUCount : Int
  Name : String
  deriving DecidableEq, Repr

structure CloneParams where
  VMName : String
  SourceUUID : String
  deriving DecidableEq, Repr

/-- The part of the `Describe` response that the step reads. -/
structure DescribeResponse where
  UUID : String
  deriving DecidableEq, Repr

/-- One invocation of a client operation, with its arguments. -/
inductive Call where
  | CreateDisk (p : CreateDiskParams)
  | Create (p : CreateParams)
  | Describe (vmName : String)
  | Clone (p : CloneParams)
  | Start (vmName : String)
  | Stop (vmName : String)
  deriving DecidableEq, Repr

/-- The client operations used by the step. Each takes the calls made before it
and its argument, and yields what the Go method returns: the payload and the
error (`none` is a nil error). The payload of `Create` is dropped by `Run`. -/
structure Client where
  CreateDisk : List Call → CreateDiskParams → String × Option String
  Create : List Call → CreateParams → String × Option String
  Describe : List Call → String → DescribeResponse × Option String
  Clone : List Call → CloneParams → Option String
  Start : List Call → String → Option String
  Stop : List Call → String → Option String

/-- A value stored in the state bag (an `interface{}`), by dynamic type. -/
inductive Value where
  | config (c : Config)
  | client (c : Client)
  | ui
  | str (s : String)
  | err (msg : String)

/-- The state bag: the most recent binding of a key comes first. -/
abbrev StateBag := List (String × Value)

/-- The lookup `state.Get(key)`; `none` is Go's nil for an absent key. -/
def StateBag.Get (bag : StateBag) (key : String) : Option Value :=
  match bag with
  | [] => none
  | (k, v) :: rest => if k = key then some v else StateBag.Get rest key

/-- The update `state.Put(key, v)`. -/
def StateBag.Put (bag : StateBag) (key : String) (v : Value) : StateBag :=
  (key, v) :: bag

/-- A message sent to the UI sink, by channel. -/
inductive UiMsg where
  | Say (msg : String)
  | Error (msg : String)
  deriving DecidableEq, Repr

/-- Everything a step can read or change: the state bag, the client calls made
so far (oldest first), the messages sent to the UI (oldest first), and the global
random source of `math/rand` (`rand i` is the raw value behind the `i`-th draw,
`drawn` the number of draws made). -/
structure World where
  bag : StateBag
  calls : List Call
  ui : List UiMsg
  rand : Nat → Nat
  drawn : Nat

/-- A computation of a step: it may panic (`none`) or return a value and the
world it leaves behind. -/
abbrev StepM (α : Type) := StateT World Option α

/-! ## step_create_vm.go: primitive effects -/

/-- A Go panic. -/
def goPanic {α : Type} : StepM α := fun _ => none

/-- The read `state.Get("config").(*Config)`. -/
def getConfig : StepM Config := fun w =>
  match w.bag.Get "config" with
  | some (.config c) => some (c, w)
  | _ => none

/-- The read `state.Get("client").(*Client)`. -/
def getClient : StepM Client := fun w =>
  match w.bag.Get "client" with
  | some (.client c) => some (c, w)
  | _ => none

/-- The read `state.Get("ui").(packer.Ui)`. -/
def getUi : StepM Unit := fun w =>
  match w.bag.Get "ui" with
  | some .ui => some ((), w)
  | _ => none

/-- The read `state.Get(key).(string)`. -/
def getString (key : String) : StepM String := fun w =>
  match w.bag.Get key with
  | some (.str s) => some (s, w)
  | _ => none

def statePut (key : String) (v : Value) : StepM Unit := fun w =>
  some ((), { w with bag := w.bag.Put key v })

def uiSay (msg : String) : StepM Unit := fun w =>
  some ((), { w with ui := w.ui ++ [UiMsg.Say msg] })

def uiError (msg : String) : StepM Unit := fun w =>
  some ((), { w with ui := w.ui ++ [UiMsg.Error msg] })

def clientCreateDisk (client : Client) (p : CreateDiskParams) :
    StepM (String × Option String) := fun w =>
  some (client.CreateDisk w.calls p, { w with calls := w.calls ++ [Call.CreateDisk p] })

def clientCreate (client : Client) (p : CreateParams) :
    StepM (String × Option String) := fun w =>
  some (client.Create w.calls p, { w with calls := w.calls ++ [Call.Create p] })

def clientDescribe (client : Client) (vmName : String) :
    StepM (DescribeResponse × Option String) := fun w =>
  some (client.Describe w.calls vmName, { w with calls := w.calls ++ [Call.Describe vmName] })

def clientClone (client : Client) (p : CloneParams) : StepM (Option String) := fun w =>
  some (client.Clone w.calls p, { w with calls := w.calls ++ [Call.Clone p] })

def clientStart (client : Client) (vmName : String) : StepM (Option String) := fun w =>
  some (client.Start w.calls vmName, { w with calls := w.calls ++ [Call.Start vmName] })

def clientStop (client : Client) (vmName : String) : StepM (Option String) := fun w =>
  some (client.Stop w.calls vmName, { w with calls := w.calls ++ [Call.Stop vmName] })

/-- The draw `rand.Intn(n)`: panics for `n ≤ 0`, else a value below `n`. -/
def randIntn (n : Nat) : StepM Nat := fun w =>
  if n = 0 then none
  else some (w.rand w.drawn % n, { w with drawn := w.drawn + 1 })

/-! ## step_create_vm.go: randSeq -/

def letters : List Char := "abcdefghijklmnopqrstuvwxyzABCDEFGHIJKLMNOPQRSTUVWXYZ".data

/-- The indexing `letters[i]`, which panics outside the slice. -/
def lettersAt (i : Nat) : StepM Char :=
  match letters.get? i with
  | some c => pure c
  | none => goPanic

/-- The loop of `randSeq` over the `n` positions of `b`, in order. -/
def randRunes : Nat → StepM (List Char)
  | 0 => pure []
  | n + 1 => do
    let i ← randIntn letters.length
    let c ← lettersAt i
    let rest ← randRunes n
    pure (c :: rest)

def randSeq (n : Nat) : StepM String := do
  let b ← randRunes n
  pure (String.mk b)

/-! ## step_create_vm.go: Run and Cleanup

`StepCreateVM` has no fields, so the receiver is left out. -/

namespace StepCreateVM

/-- Lines 51 to 80 of `Run`: describe the source, clone it, start the clone and
publish `vm_name`. Both branches of the test on `sourceVM` continue here. -/
def RunFromDescribe (client : Client) (sourceVM : String) : StepM StepAction := do
  let (descr, err) ← clientDescribe client sourceVM
  match err with
  | some e =>
    statePut "error" (.err e)
    uiError e
    pure .ActionHalt
  | none =>
    let vmName := "anka-packer-" ++ (← randSeq 10)
    uiSay ("Cloning source VM " ++ sourceVM ++ " into a new virtual machine " ++ vmName)
    let err ← clientClone client { VMName := vmName, SourceUUID := descr.UUID }
    match err with
    | some e =>
      statePut "error" (.err e)
      uiError e
      pure .ActionHalt
    | none =>
      uiSay ("Starting up " ++ vmName)
      let err ← clientStart client vmName
      match err with
      | some e =>
        statePut "error" (.err e)
        uiError e
        pure .ActionHalt
      | none =>
        statePut "vm_name" (.str vmName)
        pure .ActionContinue

def Run : StepM StepAction := do
  let config ← getConfig
  let client ← getClient
  getUi
  let sourceVM := config.SourceVMName
  if sourceVM = "" then
    uiSay "Creating a new disk from installer, this will take a while"
    let (imageID, err) ← clientCreateDisk client
      { DiskSize := config.DiskSize, InstallerApp := config.InstallerApp }
    match err with
    | some e =>
      statePut "error" (.err e)
      uiError e
    | none => pure ()
    uiSay ("Creating disk image from app: " ++ config.InstallerApp)
    uiSay "Creating a new virtual machine"
    let sourceVM := "anka-disk-base-" ++ (← randSeq 10)
    let (_, err) ← clientCreate client
      { ImageID := imageID, RamSize := "2G", CPUCount := 2, Name := sourceVM }
    match err with
    | some e =>
      let err := "Error creating VM: " ++ e
      statePut "error" (.err err)
      uiError err
      pure .ActionHalt
    | none =>
      uiSay ("VM " ++ sourceVM ++ " was created")
      RunFromDescribe client sourceVM
  else
    RunFromDescribe client sourceVM

def Cleanup : StepM Unit := do
  let client ← getClient
  getUi
  let vmName ← getString "vm_name"
  let err ← clientStop client vmName
  match err with
  | some e => uiError e
  | none => pure ()

end StepCreateVM

open StepCreateVM

/-! ## Auxiliary definitions for the statements -/

/-- The runes that `randSeq` picks in `n` draws when the random source stands at
draw `k`. -/
def pickedRunes (rand : Nat → Nat) (k : Nat) : Nat → List Char
  | 0 => []
  | n + 1 => letters.getD (rand k % letters.length) 'a' :: pickedRunes rand (k + 1) n

/-- The name that `Run` gives the working VM when the random source stands as in `w`. -/
def cloneName (w : World) : String :=
  "anka-packer-" ++ String.mk (pickedRunes w.rand w.drawn 10)

/-- The name that `Run` gives the base VM when the random source stands as in `w`. -/
def baseName (w : World) : String :=
  "anka-disk-base-" ++ String.mk (pickedRunes w.rand w.drawn 10)

/-- The call is one of those of lines 51 to 80: `Describe`, `Clone` or `Start`. -/
def Call.afterCreation : Call → Bool
  | .Describe _ | .Clone _ | .Start _ => true
  | _ => false

/-- The call is `CreateDisk` or `Create`. -/
def Call.isCreation : Call → Bool
  | .CreateDisk _ | .Create _ => true
  | _ => false

/-- The argument of the `CreateDisk` call of `Run`. -/
def diskParams (config : Config) : CreateDiskParams :=
  { DiskSize := config.DiskSize, InstallerApp := config.InstallerApp }

/-- The argument of the `Create` call of `Run` made from the world `w`. -/
def createParams (config : Config) (client : Client) (w : World) : CreateParams :=
  { ImageID := (client.CreateDisk w.calls (diskParams config)).1
    RamSize := "2G", CPUCount := 2, Name := baseName w }

/-- The messages of lines 21 to 33 of `Run`, started in `w`. -/
def creationMessages (config : Config) (client : Client) (w : World) : List UiMsg :=
  UiMsg.Say "Creating a new disk from installer, this will take a while" ::
    ((match (client.CreateDisk w.calls (diskParams config)).2 with
      | some e => [UiMsg.Error e]
      | none => []) ++
    [UiMsg.Say ("Creating disk image from app: " ++ config.InstallerApp),
     UiMsg.Say "Creating a new virtual machine"])

/-- The world in which `Run`, started in `w` with an empty source name, tests the
error of `Create` (line 41): both creation calls are made, the messages of lines
21 to 33 are out, the error of `CreateDisk`, if any, is recorded and reported,
and ten draws are used up. -/
def worldAtCreate (config : Config) (client : Client) (w : World) : World :=
  { w with
    calls := w.calls ++ [Call.CreateDisk (diskParams config),
      Call.Create (createParams config client w)]
    bag := match (client.CreateDisk w.calls (diskParams config)).2 with
      | some e => w.bag.Put "error" (.err e)
      | none => w.bag
    ui := w.ui ++ creationMessages config client w
    drawn := w.drawn + 10 }

/-! ## Sample inputs -/

/-- A client on which every operation succeeds. -/
def okClient : Client where
  CreateDisk := fun _ _ => ("image-1", none)
  Create := fun _ _ => ("uuid-base", none)
  Describe := fun _ _ => ({ UUID := "uuid-source" }, none)
  Clone := fun _ _ => none
  Start := fun _ _ => none
  Stop := fun _ _ => none

/-- A client on which `CreateDisk` fails and everything else succeeds. -/
def diskFailsClient : Client :=
  { okClient with CreateDisk := fun _ _ => ("", some "create-disk: installer not found") }

/-- A client on which `Describe` fails and everything else succeeds. -/
def describeFailsClient : Client :=
  { okClient with Describe := fun _ _ => ({ UUID := "" }, some "describe: no such VM") }

/-- A client on which `Stop` fails and everything else succeeds. -/
def stopFailsClient : Client :=
  { okClient with Stop := fun _ _ => some "stop: VM is not running" }

/-- A validated configuration that names an installer and no source VM. -/
def installerConfig : Config :=
  { CommType := "anka", InstallerApp := "/Applications/Install macOS.app", SourceVMName := ""
    VMName := "", DiskSize := "25G", RamSize := "2G", CPUCount := "2" }

/-- The same configuration with other RAM and CPU settings. -/
def largeConfig : Config :=
  { installerConfig with RamSize := "16G", CPUCount := "8" }

/-- A validated configuration that names a source VM and no installer. -/
def sourceConfig : Config :=
  { CommType := "anka", InstallerApp := "", SourceVMName := "base-vm"
    VMName := "", DiskSize := "25G", RamSize := "2G", CPUCount := "2" }

/-- A decoded configuration that names neither an installer nor a source VM. -/
def neitherConfig : Config :=
  { CommType := "", InstallerApp := "", SourceVMName := ""
    VMName := "", DiskSize := "", RamSize := "", CPUCount := "" }

/-- A decoded configuration that names an installer and leaves the sizes empty,
but for the RAM size. -/
def sparseConfig : Config :=
  { CommType := "", InstallerApp := "/Applications/Install macOS.app", SourceVMName := ""
    VMName := "build-1", DiskSize := "", RamSize := "8G", CPUCount := "" }

/-- A decoded configuration that names both an installer and a source VM. -/
def bothConfig : Config :=
  { CommType := "", InstallerApp := "/Applications/Install macOS.app"
    SourceVMName := "base-vm", VMName := "", DiskSize := "", RamSize := "", CPUCount := "" }

/-- The world as the builder sets it up before the first step: `config`, `client`
and `ui` in the state bag, no call made, nothing said, the random source at its
first draw. -/
def startWorld (config : Config) (client : Client) : World :=
  { bag := [("config", .config config), ("client", .client client), ("ui", .ui)]
    calls := [], ui := [], rand := fun i => 7 * i + 3, drawn := 0 }

/-- The world after a `Run` that published the name `vmName`. -/
def startedWorld (client : Client) (vmName : String) : World :=
  { bag := [("vm_name", .str vmName), ("config", .config sourceConfig),
      ("client", .client client), ("ui", .ui)]
    calls := [], ui := [], rand := fun i => 7 * i + 3, drawn := 10 }

/-! ## Theorems on config.go -/

theorem NewConfig_both_empty (c : Config)
    (h1 : c.InstallerApp = "") (h2 : c.SourceVMName = "") :
    NewConfig (.ok c) =
      (none, some (.multi ["installer_app or source_vm_name must be specified"])) := by
  simp only [NewConfig, MultiErrorAppend]
  by_cases a : c.CommType = "" <;> by_cases b : c.DiskSize = "" <;>
    by_cases d : c.CPUCount = "" <;> by_cases e : c.RamSize = "" <;>
    simp [a, b, d, e, h1, h2]

theorem NewConfig_accepts (c : Config) (h : ¬ (c.InstallerApp = "" ∧ c.SourceVMName = "")) :
    NewConfig (.ok c) =
      (some { CommType := if c.CommType = "" then "anka" else c.CommType
              InstallerApp := c.InstallerApp
              SourceVMName := c.SourceVMName
              VMName := c.VMName
              DiskSize := if c.DiskSize = "" then "25G" else c.DiskSize
              RamSize := if c.RamSize = "" then "2G" else c.RamSize
              CPUCount := if c.CPUCount = "" then "2" else c.CPUCount }, none) := by
  simp only [NewConfig, MultiErrorAppend]
  by_cases a : c.CommType = "" <;> by_cases b : c.DiskSize = "" <;>
    by_cases d : c.CPUCount = "" <;> by_cases e : c.RamSize = "" <;>
    simp [a, b, d, e, h]

theorem missing_source_message_mentions :
    Mentions (ConfigError.Error
        (.multi ["installer_app or source_vm_name must be specified"])) "installer_app" ∧
      Mentions (ConfigError.Error
        (.multi ["installer_app or source_vm_name must be specified"])) "source_vm_name" :=
  ⟨⟨"1 error(s) occurred:\n\n* ", " or source_vm_name must be specified", by decide⟩,
   ⟨"1 error(s) occurred:\n\n* installer_app or ", " must be specified", by decide⟩⟩

/-- C3. When the decoded configuration has both `installer_app` and
`source_vm_name` empty, `NewConfig` returns no config and an error made of one
accumulated error, whose own text and whose rendered message both mention
`installer_app` and `source_vm_name`. And when `NewConfig` returns an error on a
decoded configuration, both fields are empty. -/
theorem NewConfig_rejects_missing_source (c : Config) :
    (c.InstallerApp = "" ∧ c.SourceVMName = "" →
      ∃ msg, NewConfig (.ok c) = (none, some (.multi [msg])) ∧
        Mentions msg "installer_app" ∧ Mentions msg "source_vm_name" ∧
        Mentions (ConfigError.Error (.multi [msg])) "installer_app" ∧
        Mentions (ConfigError.Error (.multi [msg])) "source_vm_name") ∧
    ((NewConfig (.ok c)).2 ≠ none → c.InstallerApp = "" ∧ c.SourceVMName = "") := by
  constructor
  · rintro ⟨h1, h2⟩
    exact ⟨_, NewConfig_both_empty c h1 h2,
      ⟨"", " or source_vm_name must be specified", by decide⟩,
      ⟨"installer_app or ", " must be specified", by decide⟩,
      missing_source_message_mentions.1, missing_source_message_mentions.2⟩
  · intro herr
    by_contra h
    rw [NewConfig_accepts c h] at herr
    exact herr rfl

theorem NewConfig_rejects_missing_source_witness :
    (neitherConfig.InstallerApp = "" ∧ neitherConfig.SourceVMName = "") ∧
      ∃ msg, NewConfig (.ok neitherConfig) = (none, some (.multi [msg])) ∧
        Mentions msg "installer_app" ∧ Mentions msg "source_vm_name" ∧
        Mentions (ConfigError.Error (.multi [msg])) "installer_app" ∧
        Mentions (ConfigError.Error (.multi [msg])) "source_vm_name" :=
  ⟨by decide, (NewConfig_rejects_missing_source neitherConfig).1 (by decide)⟩

/-- C4. When `NewConfig` returns a config for a decoded configuration, its
`DiskSize`, `CPUCount` and `RamSize` are `25G`, `2` and `2G` where the input
field was empty and the input value where it was not, and `InstallerApp`,
`SourceVMName` and `VMName` are those of the input. -/
theorem NewConfig_defaults (c c' : Config) (h : (NewConfig (.ok c)).1 = some c') :
    c'.DiskSize = (if c.DiskSize = "" then "25G" else c.DiskSize) ∧
    c'.CPUCount = (if c.CPUCount = "" then "2" else c.CPUCount) ∧
    c'.RamSize = (if c.RamSize = "" then "2G" else c.RamSize) ∧
    c'.InstallerApp = c.InstallerApp ∧ c'.SourceVMName = c.SourceVMName ∧
    c'.VMName = c.VMName := by
  by_cases hb : c.InstallerApp = "" ∧ c.SourceVMName = ""
  · rw [NewConfig_both_empty c hb.1 hb.2] at h
    cases h
  · rw [NewConfig_accepts c hb] at h
    cases h
    exact ⟨rfl, rfl, rfl, rfl, rfl, rfl⟩

theorem NewConfig_defaults_witness :
    (NewConfig (.ok sparseConfig)).1 = some
        { CommType := "anka", InstallerApp := "/Applications/Install macOS.app"
          SourceVMName := "", VMName := "build-1", DiskSize := "25G", RamSize := "8G"
          CPUCount := "2" } ∧
      "25G" = (if sparseConfig.DiskSize = "" then "25G" else sparseConfig.DiskSize) ∧
      "2" = (if sparseConfig.CPUCount = "" then "2" else sparseConfig.CPUCount) ∧
      "8G" = (if sparseConfig.RamSize = "" then "2G" else sparseConfig.RamSize) ∧
      "/Applications/Install macOS.app" = sparseConfig.InstallerApp ∧
      "" = sparseConfig.SourceVMName ∧ "build-1" = sparseConfig.VMName :=
  ⟨by decide, NewConfig_defaults sparseConfig
    { CommType := "anka", InstallerApp := "/Applications/Install macOS.app"
      SourceVMName := "", VMName := "build-1", DiskSize := "25G", RamSize := "8G"
      CPUCount := "2" } (by decide)⟩

/-- C5, as the claim states it, fails: a decoded configuration with both
`installer_app` and `source_vm_name` supplied is accepted by `NewConfig`. -/
theorem NewConfig_accepts_both_supplied :
    bothConfig.InstallerApp ≠ "" ∧ bothConfig.SourceVMName ≠ "" ∧
      (NewConfig (.ok bothConfig)).1 = some
        { CommType := "anka", InstallerApp := "/Applications/Install macOS.app"
          SourceVMName := "base-vm", VMName := "", DiskSize := "25G", RamSize := "2G"
          CPUCount := "2" } ∧
      (NewConfig (.ok bothConfig)).2 = none := by
  decide

/-- C5, amended. At least one of `installer_app` and `source_vm_name` must be
supplied: a decoded configuration with both supplied gets a config and no error
from `NewConfig`, and `NewConfig` returns an error and no config exactly when
both are empty. -/
theorem NewConfig_requires_one_source (c : Config) :
    (c.InstallerApp ≠ "" ∧ c.SourceVMName ≠ "" →
      ∃ c', NewConfig (.ok c) = (some c', none)) ∧
    (((NewConfig (.ok c)).1 = none ∧ (NewConfig (.ok c)).2 ≠ none) ↔
      (c.InstallerApp = "" ∧ c.SourceVMName = "")) := by
  refine ⟨fun h => ⟨_, NewConfig_accepts c (fun hb => h.1 hb.1)⟩, ?_, ?_⟩
  · rintro ⟨h1, -⟩
    by_contra h
    rw [NewConfig_accepts c h] at h1
    cases h1
  · rintro ⟨h1, h2⟩
    rw [NewConfig_both_empty c h1 h2]
    exact ⟨rfl, fun h => by cases h⟩

theorem NewConfig_requires_one_source_witness :
    (bothConfig.InstallerApp ≠ "" ∧ bothConfig.SourceVMName ≠ "") ∧
      ∃ c', NewConfig (.ok bothConfig) = (some c', none) :=
  ⟨by decide, (NewConfig_requires_one_source bothConfig).1 (by decide)⟩

/-! ## Theorems on step_create_vm.go -/

theorem letters_length : letters.length = 52 := by decide

theorem bind_run {α β : Type} (m : StepM α) (f : α → StepM β) (w : World) :
    (m >>= f) w = (m w).bind (fun p => f p.1 p.2) := by
  show StateT.bind m f w = _
  unfold StateT.bind
  cases h : m w <;> simp [h, Bind.bind] 
  
theorem map_run {α β : Type} (f : α → β) (m : StepM α) (w : World) :
    (f <$> m) w = (m w).map (fun p => (f p.1, p.2)) := by
  show StateT.map f m w = _
  unfold StateT.map
  cases h : m w <;> simp [h, Bind.bind, Pure.pure]

theorem pure_run {α : Type} (a : α) (w : World) : (pure a : StepM α) w = some (a, w) := rfl

theorem randRunes_run (n : Nat) (w : World) :
    randRunes n w = some (pickedRunes w.rand w.drawn n, { w with drawn := w.drawn + n }) := by
  induction n generalizing w with
  | zero => rfl
  | succ n ih =>
    have hlt : w.rand w.drawn % letters.length < letters.length :=
      Nat.mod_lt _ (by rw [letters_length]; decide)
    obtain ⟨c, hc⟩ : ∃ c, letters.get? (w.rand w.drawn % letters.length) = some c :=
      ⟨_, List.get?_eq_get hlt⟩
    simp only [randRunes, bind_run, randIntn, letters_length, lettersAt, pure_run]
    simp [letters_length] at hc
    simp [hc, pure_run, ih, pickedRunes, letters_length, List.getD, Nat.add_assoc, Nat.add_comm 1 n]

theorem randSeq_run (n : Nat) (w : World) :
    randSeq n w = some (String.mk (pickedRunes w.rand w.drawn n), { w with drawn := w.drawn + n }) := by
  simp [randSeq, bind_run, randRunes_run, pure_run]

/-- The four ways through lines 51 to 80, written out on the world. -/
theorem RunFromDescribe_run (client : Client) (src : String) (w : World) :
    RunFromDescribe client src w = some (
      let d := client.Describe w.calls src
      let vmName := cloneName w
      let p : CloneParams := { VMName := vmName, SourceUUID := d.1.UUID }
      let said := UiMsg.Say ("Cloning source VM " ++ src ++ " into a new virtual machine " ++ vmName)
      match d.2 with
      | some e => (.ActionHalt,
          { w with calls := w.calls ++ [Call.Describe src]
                   bag := w.bag.Put "error" (.err e)
                   ui := w.ui ++ [UiMsg.Error e] })
      | none =>
        match client.Clone (w.calls ++ [Call.Describe src]) p with
        | some e => (.ActionHalt,
            { w with calls := w.calls ++ [Call.Describe src, Call.Clone p]
                     bag := w.bag.Put "error" (.err e)
                     ui := w.ui ++ [said, UiMsg.Error e]
                     drawn := w.drawn + 10 })
        | none =>
          match client.Start (w.calls ++ [Call.Describe src, Call.Clone p]) vmName with
          | some e => (.ActionHalt,
              { w with calls := w.calls ++ [Call.Describe src, Call.Clone p, Call.Start vmName]
                       bag := w.bag.Put "error" (.err e)
                       ui := w.ui ++ [said, UiMsg.Say ("Starting up " ++ vmName), UiMsg.Error e]
                       drawn := w.drawn + 10 })
          | none => (.ActionContinue,
              { w with calls := w.calls ++ [Call.Describe src, Call.Clone p, Call.Start vmName]
                       bag := w.bag.Put "vm_name" (.str vmName)
                       ui := w.ui ++ [said, UiMsg.Say ("Starting up " ++ vmName)]
                       drawn := w.drawn + 10 })) := by
  simp only [RunFromDescribe, bind_run, clientDescribe, Option.bind]
  cases h : (client.Describe w.calls src).2 with
  | some e => simp [bind_run, map_run, statePut, uiError, pure_run]
  | none =>
    simp only [bind_run, randSeq_run, uiSay, clientClone, Option.bind, cloneName]
    cases hc : client.Clone (w.calls ++ [Call.Describe src])
        { VMName := "anka-packer-" ++ String.mk (pickedRunes w.rand w.drawn 10)
          SourceUUID := (client.Describe w.calls src).1.UUID } with
    | some e => simp [bind_run, map_run, statePut, uiError, pure_run]
    | none =>
      simp only [bind_run, clientStart, uiSay, Option.bind]
      cases hs : client.Start (w.calls ++ [Call.Describe src] ++ [Call.Clone
          { VMName := "anka-packer-" ++ String.mk (pickedRunes w.rand w.drawn 10)
            SourceUUID := (client.Describe w.calls src).1.UUID }])
          ("anka-packer-" ++ String.mk (pickedRunes w.rand w.drawn 10)) with
      | some e =>
        simp only [List.append_assoc, List.singleton_append] at hs
        simp [bind_run, map_run, statePut, uiError, pure_run, hs]
      | none =>
        simp only [List.append_assoc, List.singleton_append] at hs
        simp [bind_run, map_run, statePut, uiError, pure_run, hs]

/-- The two branches of `Run` written out on the world: with an empty source
name the step either halts on the error of `Create` or goes on to line 51 with
the generated base name; with a source name it goes to line 51 at once. -/
theorem Run_run (config : Config) (client : Client) (w : World)
    (hcfg : w.bag.Get "config" = some (.config config))
    (hcl : w.bag.Get "client" = some (.client client))
    (hui : w.bag.Get "ui" = some .ui) :
    Run w =
      if config.SourceVMName = "" then
        match (client.Create (w.calls ++ [Call.CreateDisk (diskParams config)])
            (createParams config client w)).2 with
        | some e => some (.ActionHalt,
            { worldAtCreate config client w with
              bag := (worldAtCreate config client w).bag.Put "error"
                (.err ("Error creating VM: " ++ e))
              ui := (worldAtCreate config client w).ui ++
                [UiMsg.Error ("Error creating VM: " ++ e)] })
        | none => RunFromDescribe client (baseName w)
            { worldAtCreate config client w with
              ui := (worldAtCreate config client w).ui ++
                [UiMsg.Say ("VM " ++ baseName w ++ " was created")] }
      else RunFromDescribe client config.SourceVMName w := by
  simp only [Run, bind_run, getConfig, getClient, getUi, hcfg, hcl, hui, Option.bind]
  by_cases hs : config.SourceVMName = ""
  · simp only [hs, if_true, bind_run, uiSay, clientCreateDisk, Option.bind, baseName,
      worldAtCreate, createParams, diskParams,
      creationMessages]
    cases hd : (client.CreateDisk w.calls
        { DiskSize := config.DiskSize, InstallerApp := config.InstallerApp }).2 with
    | some e =>
      simp only [bind_run, statePut, uiError, uiSay, randSeq_run, clientCreate, Option.bind]
      cases hc : (client.Create (w.calls ++ [Call.CreateDisk
          { DiskSize := config.DiskSize, InstallerApp := config.InstallerApp }])
          { ImageID := (client.CreateDisk w.calls
              { DiskSize := config.DiskSize, InstallerApp := config.InstallerApp }).1
            RamSize := "2G", CPUCount := 2
            Name := "anka-disk-base-" ++ String.mk (pickedRunes w.rand w.drawn 10) }).2 with
      | some e2 => simp [bind_run, map_run, statePut, uiError, pure_run]
      | none => simp [bind_run, map_run, statePut, uiError, pure_run, uiSay]
    | none =>
      simp only [bind_run, pure_run, statePut, uiError, uiSay, randSeq_run, clientCreate, Option.bind]
      cases hc : (client.Create (w.calls ++ [Call.CreateDisk
          { DiskSize := config.DiskSize, InstallerApp := config.InstallerApp }])
          { ImageID := (client.CreateDisk w.calls
              { DiskSize := config.DiskSize, InstallerApp := config.InstallerApp }).1
            RamSize := "2G", CPUCount := 2
            Name := "anka-disk-base-" ++ String.mk (pickedRunes w.rand w.drawn 10) }).2 with
      | some e2 => simp [bind_run, map_run, statePut, uiError, pure_run]
      | none => simp [bind_run, map_run, statePut, uiError, pure_run, uiSay]
  · simp [hs]

theorem pickedRunes_length (rand : Nat → Nat) (k n : Nat) :
    (pickedRunes rand k n).length = n := by
  induction n generalizing k with
  | zero => rfl
  | succ n ih => simp [pickedRunes, ih]

theorem pickedRunes_mem (rand : Nat → Nat) (k n : Nat) :
    ∀ c ∈ pickedRunes rand k n, c ∈ letters := by
  induction n generalizing k with
  | zero => intro c hc; simp [pickedRunes] at hc
  | succ n ih =>
    intro c hc
    simp only [pickedRunes, List.mem_cons] at hc
    rcases hc with rfl | hc
    · have hlt : rand k % letters.length < letters.length :=
        Nat.mod_lt _ (by rw [letters_length]; decide)
      rw [List.getD_eq_getElem _ _ hlt]
      exact List.getElem_mem _
    · exact ih _ c hc

theorem Get_Put_ne (bag : StateBag) (k k' : String) (v : Value) (h : k ≠ k') :
    (bag.Put k v).Get k' = bag.Get k' := by
  simp [StateBag.Put, StateBag.Get, h]

theorem Get_Put_same (bag : StateBag) (k : String) (v : Value) :
    (bag.Put k v).Get k = some v := by
  simp [StateBag.Put, StateBag.Get]

theorem Cleanup_run (client : Client) (name : String) (w : World)
    (hcl : w.bag.Get "client" = some (.client client))
    (hui : w.bag.Get "ui" = some .ui)
    (hname : w.bag.Get "vm_name" = some (.str name)) :
    Cleanup w = some ((),
      { w with calls := w.calls ++ [Call.Stop name]
               ui := match client.Stop w.calls name with
                 | some e => w.ui ++ [UiMsg.Error e]
                 | none => w.ui }) := by
  simp only [Cleanup, bind_run, getClient, getUi, getString, hcl, hui, hname, clientStop,
    Option.bind]
  cases h : client.Stop w.calls name <;> simp [uiError, pure_run]

theorem getClient_world (w : World) (p : Client × World) (h : getClient w = some p) :
    p.2 = w := by
  unfold getClient at h
  split at h
  · cases h; rfl
  · cases h

theorem getUi_world (w : World) (p : Unit × World) (h : getUi w = some p) : p.2 = w := by
  unfold getUi at h
  split at h
  · cases h; rfl
  · cases h

theorem getString_absent (w : World) (key : String) (h : w.bag.Get key = none) :
    getString key w = none := by
  simp [getString, h]

theorem Cleanup_panics (w : World) (h : w.bag.Get "vm_name" = none) :
    Cleanup w = none := by
  simp only [Cleanup, bind_run]
  cases h1 : getClient w with
  | none => rfl
  | some p =>
    have e1 := getClient_world w p h1
    simp only [Option.bind]
    cases h2 : getUi p.2 with
    | none => rfl
    | some q =>
      have e2 := getUi_world p.2 q h2
      simp only [Option.bind]
      rw [e2, e1, getString_absent w "vm_name" h]

/-- What every way through lines 51 to 80 has in common: the step returns, its
first call is `Describe` on the source, only `Clone` and `Start` follow, a halt
leaves the error in the bag and on the error channel and does not touch
`vm_name`, and a continue has made all three calls and published the name. -/
theorem RunFromDescribe_summary (client : Client) (src : String) (w : World) :
    ∃ a w', RunFromDescribe client src w = some (a, w') ∧
      (∃ rest, w'.calls = w.calls ++ Call.Describe src :: rest ∧
        ∀ c ∈ rest, c.afterCreation = true) ∧
      (a = .ActionHalt →
        (∃ msg bag0 pre, w'.bag = StateBag.Put bag0 "error" (.err msg) ∧
          w'.ui = w.ui ++ pre ++ [UiMsg.Error msg]) ∧
        w'.bag.Get "vm_name" = w.bag.Get "vm_name") ∧
      (a = .ActionContinue →
        w'.calls = w.calls ++
          [Call.Describe src,
           Call.Clone { VMName := cloneName w
                        SourceUUID := (client.Describe w.calls src).1.UUID },
           Call.Start (cloneName w)] ∧
        w'.bag.Get "vm_name" = some (.str (cloneName w))) := by
  rw [RunFromDescribe_run]
  refine ⟨_, _, rfl, ?_⟩
  dsimp only
  split
  · next e he =>
    refine ⟨⟨[], by simp⟩, fun _ => ⟨⟨e, w.bag, [], by simp⟩, ?_⟩, fun h => by cases h⟩
    exact Get_Put_ne _ _ _ _ (by decide)
  · split
    · next e he =>
      refine ⟨⟨_, by simp; rfl, ?_⟩, fun _ => ⟨⟨e, w.bag, [_], rfl, by simp; rfl⟩, ?_⟩,
        fun h => by cases h⟩
      · intro c hc; simp at hc; subst hc; rfl
      · exact Get_Put_ne _ _ _ _ (by decide)
    · split
      · next e he =>
        refine ⟨⟨_, by simp; rfl, ?_⟩, fun _ => ⟨⟨e, w.bag, [_, _], rfl, by simp; exact ⟨rfl, rfl⟩⟩, ?_⟩,
          fun h => by cases h⟩
        · intro c hc; simp at hc; rcases hc with rfl | rfl <;> rfl
        · exact Get_Put_ne _ _ _ _ (by decide)
      · refine ⟨⟨_, by simp; rfl, ?_⟩, fun h => (by cases h), fun _ => ⟨rfl, ?_⟩⟩
        · intro c hc; simp at hc; rcases hc with rfl | rfl <;> rfl
        · exact Get_Put_same _ _ _

/-! ### The claims on `Run` and `Cleanup` -/

/-- C1. `CreateDisk` fails, and `Run` still calls `Create`, `Describe`, `Clone`
and `Start` and returns `ActionContinue`. -/
theorem Run_goes_on_after_failed_CreateDisk :
    (diskFailsClient.CreateDisk [] (diskParams installerConfig)).2 =
        some "create-disk: installer not found" ∧
      (Run (startWorld installerConfig diskFailsClient)).map (fun r => (r.1, r.2.calls)) =
        some (.ActionContinue,
          [Call.CreateDisk
             { DiskSize := "25G", InstallerApp := "/Applications/Install macOS.app" },
           Call.Create
             { ImageID := "", RamSize := "2G", CPUCount := 2, Name := "anka-disk-base-dkryFMTaho" },
           Call.Describe "anka-disk-base-dkryFMTaho",
           Call.Clone { VMName := "anka-packer-vCJQXelszG", SourceUUID := "uuid-source" },
           Call.Start "anka-packer-vCJQXelszG"]) := by
  decide!

/-- C6. `Describe` fails, `Run` returns `ActionHalt` without having written
`vm_name`, and `Cleanup` on the state bag it leaves panics on the type
assertion of `vm_name`. -/
theorem Cleanup_panics_after_halted_Run :
    (Run (startWorld sourceConfig describeFailsClient)).map (fun r => r.1) =
        some .ActionHalt ∧
      (Run (startWorld sourceConfig describeFailsClient)).map
        (fun r => (r.2.bag.Get "vm_name").isSome) = some false ∧
      ((Run (startWorld sourceConfig describeFailsClient)).bind
        fun r => Cleanup r.2).isNone = true := by
  decide!

/-- C2. Whatever the client answers, `Run` returns. With an empty `SourceVMName`
its first two client calls are `CreateDisk` and then `Create`, and every later
call is a `Describe`, `Clone` or `Start`. With a non-empty `SourceVMName` its
first client call is `Describe` on exactly that name and none of its calls is a
`CreateDisk` or a `Create`. -/
theorem Run_creation_calls_order (config : Config) (client : Client) (w : World)
    (hcfg : w.bag.Get "config" = some (.config config))
    (hcl : w.bag.Get "client" = some (.client client))
    (hui : w.bag.Get "ui" = some .ui) :
    ∃ a w' issued, Run w = some (a, w') ∧ w'.calls = w.calls ++ issued ∧
      (config.SourceVMName = "" →
        ∃ dp cp rest, issued = Call.CreateDisk dp :: Call.Create cp :: rest ∧
          ∀ c ∈ rest, c.afterCreation = true) ∧
      (config.SourceVMName ≠ "" →
        (∃ rest, issued = Call.Describe config.SourceVMName :: rest) ∧
          ∀ c ∈ issued, c.isCreation = false) := by
  rw [Run_run config client w hcfg hcl hui]
  by_cases hs : config.SourceVMName = ""
  · rw [if_pos hs]
    split
    · next e he =>
      exact ⟨_, _, _, rfl, rfl, fun _ => ⟨_, _, [], rfl, by simp⟩, fun h => absurd hs h⟩
    · next he =>
      obtain ⟨a, w', hrun, ⟨rest, hcalls, hrest⟩, -, -⟩ :=
        RunFromDescribe_summary client (baseName w)
          { worldAtCreate config client w with
            ui := (worldAtCreate config client w).ui ++
              [UiMsg.Say ("VM " ++ baseName w ++ " was created")] }
      refine ⟨a, w', Call.CreateDisk (diskParams config) ::
        Call.Create (createParams config client w) :: Call.Describe (baseName w) :: rest,
        hrun, ?_, fun _ => ⟨_, _, _, rfl, ?_⟩, fun h => absurd hs h⟩
      · rw [hcalls]; simp [worldAtCreate]
      · intro c hc
        simp only [List.mem_cons] at hc
        rcases hc with rfl | hc
        · rfl
        · exact hrest c hc
  · rw [if_neg hs]
    obtain ⟨a, w', hrun, ⟨rest, hcalls, hrest⟩, -, -⟩ :=
      RunFromDescribe_summary client config.SourceVMName w
    refine ⟨a, w', _, hrun, hcalls, fun h => absurd h hs, fun _ => ⟨⟨rest, rfl⟩, ?_⟩⟩
    intro c hc
    simp only [List.mem_cons] at hc
    rcases hc with rfl | hc
    · rfl
    · have := hrest c hc
      cases c <;> simp_all [Call.afterCreation, Call.isCreation]

theorem Run_creation_calls_order_witness :
    ((startWorld installerConfig okClient).bag.Get "config" = some (.config installerConfig) ∧
      (startWorld installerConfig okClient).bag.Get "client" = some (.client okClient) ∧
      (startWorld installerConfig okClient).bag.Get "ui" = some .ui) ∧
    ∃ a w' issued, Run (startWorld installerConfig okClient) = some (a, w') ∧
      w'.calls = (startWorld installerConfig okClient).calls ++ issued ∧
      (installerConfig.SourceVMName = "" →
        ∃ dp cp rest, issued = Call.CreateDisk dp :: Call.Create cp :: rest ∧
          ∀ c ∈ rest, c.afterCreation = true) ∧
      (installerConfig.SourceVMName ≠ "" →
        (∃ rest, issued = Call.Describe installerConfig.SourceVMName :: rest) ∧
          ∀ c ∈ issued, c.isCreation = false) :=
  ⟨⟨rfl, rfl, rfl⟩,
    Run_creation_calls_order installerConfig okClient (startWorld installerConfig okClient)
      rfl rfl rfl⟩

/-- C7. Whatever the client answers, `Run` returns, and whenever it returns
`ActionHalt` the last thing written to the state bag is an error under the key
`error`, and the last message sent to the UI, by this run, is that same error on
the error channel. -/
theorem Run_halt_is_reported (config : Config) (client : Client) (w : World)
    (hcfg : w.bag.Get "config" = some (.config config))
    (hcl : w.bag.Get "client" = some (.client client))
    (hui : w.bag.Get "ui" = some .ui) :
    ∃ a w', Run w = some (a, w') ∧
      (a = .ActionHalt →
        ∃ msg bag0 pre, w'.bag = StateBag.Put bag0 "error" (.err msg) ∧
          w'.bag.Get "error" = some (.err msg) ∧
          w'.ui = w.ui ++ pre ++ [UiMsg.Error msg]) := by
  rw [Run_run config client w hcfg hcl hui]
  by_cases hs : config.SourceVMName = ""
  · rw [if_pos hs]
    split
    · next e he =>
      exact ⟨_, _, rfl, fun _ => ⟨_, _, creationMessages config client w, rfl,
        Get_Put_same _ _ _, rfl⟩⟩
    · next he =>
      obtain ⟨a, w', hrun, -, hhalt, -⟩ :=
        RunFromDescribe_summary client (baseName w)
          { worldAtCreate config client w with
            ui := (worldAtCreate config client w).ui ++
              [UiMsg.Say ("VM " ++ baseName w ++ " was created")] }
      refine ⟨a, w', hrun, fun ha => ?_⟩
      obtain ⟨⟨msg, bag0, pre, hbag, hui'⟩, -⟩ := hhalt ha
      refine ⟨msg, bag0, creationMessages config client w ++
        [UiMsg.Say ("VM " ++ baseName w ++ " was created")] ++ pre, hbag,
        by rw [hbag]; exact Get_Put_same _ _ _, ?_⟩
      rw [hui']
      simp only [worldAtCreate, List.append_assoc]
  · rw [if_neg hs]
    obtain ⟨a, w', hrun, -, hhalt, -⟩ := RunFromDescribe_summary client config.SourceVMName w
    refine ⟨a, w', hrun, fun ha => ?_⟩
    obtain ⟨⟨msg, bag0, pre, hbag, hui'⟩, -⟩ := hhalt ha
    exact ⟨msg, bag0, pre, hbag, by rw [hbag]; exact Get_Put_same _ _ _, hui'⟩

theorem Run_halt_is_reported_witness :
    ((startWorld sourceConfig describeFailsClient).bag.Get "config" =
        some (.config sourceConfig) ∧
      (startWorld sourceConfig describeFailsClient).bag.Get "client" =
        some (.client describeFailsClient) ∧
      (startWorld sourceConfig describeFailsClient).bag.Get "ui" = some .ui) ∧
    (Run (startWorld sourceConfig describeFailsClient)).map (fun r => r.1) =
      some .ActionHalt ∧
    ∃ a w', Run (startWorld sourceConfig describeFailsClient) = some (a, w') ∧
      (a = .ActionHalt →
        ∃ msg bag0 pre, w'.bag = StateBag.Put bag0 "error" (.err msg) ∧
          w'.bag.Get "error" = some (.err msg) ∧
          w'.ui = (startWorld sourceConfig describeFailsClient).ui ++ pre ++
            [UiMsg.Error msg]) :=
  ⟨⟨rfl, rfl, rfl⟩, by decide!,
    Run_halt_is_reported sourceConfig describeFailsClient
      (startWorld sourceConfig describeFailsClient) rfl rfl rfl⟩

theorem randSeq_letters (n : Nat) (v : World) :
    ∃ s v', randSeq n v = some (s, v') ∧ s.length = n ∧ ∀ c ∈ s.data, c ∈ letters :=
  ⟨_, _, randSeq_run n v, pickedRunes_length _ _ _, pickedRunes_mem _ _ _⟩

theorem worldAtCreate_vm_name (config : Config) (client : Client) (w : World) :
    (worldAtCreate config client w).bag.Get "vm_name" = w.bag.Get "vm_name" := by
  simp only [worldAtCreate]
  split
  · exact Get_Put_ne _ _ _ _ (by decide)
  · rfl

/-- C8. Whatever the client answers, `Run` returns. When it returns
`ActionContinue`, its last three client calls are `Describe` on the source VM
(the supplied name, or the name of the base VM just created), `Clone` with the
UUID that this `Describe` returned and with a generated name, and `Start` on that
same name; the name is stored under `vm_name` and is `anka-packer-` followed by
10 characters of `letters`. When it returns `ActionHalt`, `vm_name` is as it was.
The alphabet has 52 letters, and `randSeq 10` always returns, without an index
out of range, 10 characters of it. -/
theorem Run_continue_publishes_clone (config : Config) (client : Client) (w : World)
    (hcfg : w.bag.Get "config" = some (.config config))
    (hcl : w.bag.Get "client" = some (.client client))
    (hui : w.bag.Get "ui" = some .ui) :
    (∃ a w', Run w = some (a, w') ∧
      (a = .ActionContinue →
        ∃ (before : List Call) (src : String) (suffix : List Char),
          (config.SourceVMName ≠ "" → before = [] ∧ src = config.SourceVMName) ∧
          (config.SourceVMName = "" →
            ∃ dp cp, before = [Call.CreateDisk dp, Call.Create cp] ∧ cp.Name = src) ∧
          w'.calls = w.calls ++ before ++
            [Call.Describe src,
             Call.Clone { VMName := "anka-packer-" ++ String.mk suffix
                          SourceUUID := (client.Describe (w.calls ++ before) src).1.UUID },
             Call.Start ("anka-packer-" ++ String.mk suffix)] ∧
          w'.bag.Get "vm_name" = some (.str ("anka-packer-" ++ String.mk suffix)) ∧
          suffix.length = 10 ∧ ∀ c ∈ suffix, c ∈ letters) ∧
      (a = .ActionHalt → w'.bag.Get "vm_name" = w.bag.Get "vm_name")) ∧
    letters.length = 52 ∧
    ∀ v : World, ∃ s v', randSeq 10 v = some (s, v') ∧ s.length = 10 ∧
      ∀ c ∈ s.data, c ∈ letters := by
  refine ⟨?_, letters_length, randSeq_letters 10⟩
  rw [Run_run config client w hcfg hcl hui]
  by_cases hs : config.SourceVMName = ""
  · rw [if_pos hs]
    split
    · next e he =>
      refine ⟨_, _, rfl, fun h => (by cases h), fun _ => ?_⟩
      exact (Get_Put_ne _ _ _ _ (by decide)).trans (worldAtCreate_vm_name config client w)
    · next he =>
      obtain ⟨a, w', hrun, -, hhalt, hcont⟩ :=
        RunFromDescribe_summary client (baseName w)
          { worldAtCreate config client w with
            ui := (worldAtCreate config client w).ui ++
              [UiMsg.Say ("VM " ++ baseName w ++ " was created")] }
      refine ⟨a, w', hrun, fun ha => ?_, fun ha => ?_⟩
      · obtain ⟨hcalls, hname⟩ := hcont ha
        refine ⟨[Call.CreateDisk (diskParams config), Call.Create (createParams config client w)],
          baseName w, pickedRunes w.rand (w.drawn + 10) 10,
          fun h => absurd hs h, fun _ => ⟨_, _, rfl, rfl⟩, ?_, ?_,
          pickedRunes_length _ _ _, pickedRunes_mem _ _ _⟩
        · rw [hcalls]; rfl
        · rw [hname]; rfl
      · exact ((hhalt ha).2).trans (worldAtCreate_vm_name config client w)
  · rw [if_neg hs]
    obtain ⟨a, w', hrun, -, hhalt, hcont⟩ :=
      RunFromDescribe_summary client config.SourceVMName w
    refine ⟨a, w', hrun, fun ha => ?_, fun ha => (hhalt ha).2⟩
    obtain ⟨hcalls, hname⟩ := hcont ha
    refine ⟨[], config.SourceVMName, pickedRunes w.rand w.drawn 10,
      fun _ => ⟨rfl, rfl⟩, fun h => absurd h hs, ?_, ?_,
      pickedRunes_length _ _ _, pickedRunes_mem _ _ _⟩
    · rw [hcalls]; simp [cloneName]
    · rw [hname]; rfl

theorem Run_continue_publishes_clone_witness :
    ((startWorld sourceConfig okClient).bag.Get "config" = some (.config sourceConfig) ∧
      (startWorld sourceConfig okClient).bag.Get "client" = some (.client okClient) ∧
      (startWorld sourceConfig okClient).bag.Get "ui" = some .ui) ∧
    (Run (startWorld sourceConfig okClient)).map (fun r => r.1) = some .ActionContinue ∧
    (∃ a w', Run (startWorld sourceConfig okClient) = some (a, w') ∧
      (a = .ActionContinue →
        ∃ (before : List Call) (src : String) (suffix : List Char),
          (sourceConfig.SourceVMName ≠ "" → before = [] ∧ src = sourceConfig.SourceVMName) ∧
          (sourceConfig.SourceVMName = "" →
            ∃ dp cp, before = [Call.CreateDisk dp, Call.Create cp] ∧ cp.Name = src) ∧
          w'.calls = (startWorld sourceConfig okClient).calls ++ before ++
            [Call.Describe src,
             Call.Clone { VMName := "anka-packer-" ++ String.mk suffix
                          SourceUUID := (okClient.Describe
                            ((startWorld sourceConfig okClient).calls ++ before) src).1.UUID },
             Call.Start ("anka-packer-" ++ String.mk suffix)] ∧
          w'.bag.Get "vm_name" = some (.str ("anka-packer-" ++ String.mk suffix)) ∧
          suffix.length = 10 ∧ ∀ c ∈ suffix, c ∈ letters) ∧
      (a = .ActionHalt →
        w'.bag.Get "vm_name" = (startWorld sourceConfig okClient).bag.Get "vm_name")) ∧
    letters.length = 52 ∧
    ∀ v : World, ∃ s v', randSeq 10 v = some (s, v') ∧ s.length = 10 ∧
      ∀ c ∈ s.data, c ∈ letters :=
  ⟨⟨rfl, rfl, rfl⟩, by decide!,
    Run_continue_publishes_clone sourceConfig okClient (startWorld sourceConfig okClient)
      rfl rfl rfl⟩

/-- C9. With `client`, `ui` and `vm_name` in the state bag, `Cleanup` returns
after exactly one client call, `Stop` on the stored name. If `Stop` fails, its
message goes to the error channel of the UI; if it succeeds, the UI gets nothing.
Nothing else changes: the state bag is the same, so no `error` is written, and
`Cleanup` has no result that could signal a halt. -/
theorem Cleanup_stops_and_only_reports (client : Client) (name : String) (w : World)
    (hcl : w.bag.Get "client" = some (.client client))
    (hui : w.bag.Get "ui" = some .ui)
    (hname : w.bag.Get "vm_name" = some (.str name)) :
    ∃ w', Cleanup w = some ((), w') ∧
      w'.calls = w.calls ++ [Call.Stop name] ∧
      w'.bag = w.bag ∧ w'.rand = w.rand ∧ w'.drawn = w.drawn ∧
      (∀ e, client.Stop w.calls name = some e → w'.ui = w.ui ++ [UiMsg.Error e]) ∧
      (client.Stop w.calls name = none → w'.ui = w.ui) := by
  refine ⟨_, Cleanup_run client name w hcl hui hname, rfl, rfl, rfl, rfl, ?_, ?_⟩
  · intro e he; simp [he]
  · intro he; simp [he]

theorem Cleanup_stops_and_only_reports_witness :
    ((startedWorld stopFailsClient "anka-packer-vCJQXelszG").bag.Get "client" =
        some (.client stopFailsClient) ∧
      (startedWorld stopFailsClient "anka-packer-vCJQXelszG").bag.Get "ui" = some .ui ∧
      (startedWorld stopFailsClient "anka-packer-vCJQXelszG").bag.Get "vm_name" =
        some (.str "anka-packer-vCJQXelszG")) ∧
    ∃ w', Cleanup (startedWorld stopFailsClient "anka-packer-vCJQXelszG") = some ((), w') ∧
      w'.calls = (startedWorld stopFailsClient "anka-packer-vCJQXelszG").calls ++
        [Call.Stop "anka-packer-vCJQXelszG"] ∧
      w'.bag = (startedWorld stopFailsClient "anka-packer-vCJQXelszG").bag ∧
      w'.rand = (startedWorld stopFailsClient "anka-packer-vCJQXelszG").rand ∧
      w'.drawn = (startedWorld stopFailsClient "anka-packer-vCJQXelszG").drawn ∧
      (∀ e, stopFailsClient.Stop
          (startedWorld stopFailsClient "anka-packer-vCJQXelszG").calls
          "anka-packer-vCJQXelszG" = some e →
        w'.ui = (startedWorld stopFailsClient "anka-packer-vCJQXelszG").ui ++
          [UiMsg.Error e]) ∧
      (stopFailsClient.Stop (startedWorld stopFailsClient "anka-packer-vCJQXelszG").calls
          "anka-packer-vCJQXelszG" = none →
        w'.ui = (startedWorld stopFailsClient "anka-packer-vCJQXelszG").ui) :=
  ⟨⟨rfl, rfl, rfl⟩,
    Cleanup_stops_and_only_reports stopFailsClient "anka-packer-vCJQXelszG"
      (startedWorld stopFailsClient "anka-packer-vCJQXelszG") rfl rfl rfl⟩

/-- The action and the calls of lines 51 to 80 depend on the world only through
the calls made so far and the random source. -/
theorem RunFromDescribe_calls_congr (client : Client) (src : String) (v1 v2 : World)
    (hcalls : v1.calls = v2.calls) (hrand : v1.rand = v2.rand) (hdrawn : v1.drawn = v2.drawn) :
    ∃ a v1' v2', RunFromDescribe client src v1 = some (a, v1') ∧
      RunFromDescribe client src v2 = some (a, v2') ∧ v1'.calls = v2'.calls := by
  have hname : cloneName v1 = cloneName v2 := by simp [cloneName, hrand, hdrawn]
  rw [RunFromDescribe_run, RunFromDescribe_run, hname, hcalls]
  dsimp only
  split
  · exact ⟨_, _, _, rfl, rfl, rfl⟩
  · split
    · exact ⟨_, _, _, rfl, rfl, rfl⟩
    · split
      · exact ⟨_, _, _, rfl, rfl, rfl⟩
      · exact ⟨_, _, _, rfl, rfl, rfl⟩

/-- C10. With an empty `SourceVMName`, `Run` returns, its first call is
`CreateDisk` with `config.DiskSize` and `config.InstallerApp`, and its second is
`Create` with the image ID that `CreateDisk` returned, RAM size `2G`, CPU count 2
and a name `anka-disk-base-` plus 10 letters. Run from worlds with the same
earlier calls and random source, on configurations that agree outside `RamSize`
and `CPUCount`, it returns the same action after the same client calls. -/
theorem Run_create_ignores_ram_and_cpu (c1 c2 : Config) (client : Client) (w1 w2 : World)
    (hcfg1 : w1.bag.Get "config" = some (.config c1))
    (hcl1 : w1.bag.Get "client" = some (.client client))
    (hui1 : w1.bag.Get "ui" = some .ui)
    (hcfg2 : w2.bag.Get "config" = some (.config c2))
    (hcl2 : w2.bag.Get "client" = some (.client client))
    (hui2 : w2.bag.Get "ui" = some .ui)
    (hempty : c1.SourceVMName = "")
    (hsame : c2.CommType = c1.CommType ∧ c2.InstallerApp = c1.InstallerApp ∧
      c2.SourceVMName = c1.SourceVMName ∧ c2.VMName = c1.VMName ∧ c2.DiskSize = c1.DiskSize)
    (hcalls : w1.calls = w2.calls) (hrand : w1.rand = w2.rand) (hdrawn : w1.drawn = w2.drawn) :
    ∃ a w1' w2', Run w1 = some (a, w1') ∧ Run w2 = some (a, w2') ∧ w1'.calls = w2'.calls ∧
      ∃ suffix rest, suffix.length = 10 ∧ (∀ c ∈ suffix, c ∈ letters) ∧
        w1'.calls = w1.calls ++
          Call.CreateDisk { DiskSize := c1.DiskSize, InstallerApp := c1.InstallerApp } ::
          Call.Create
            { ImageID := (client.CreateDisk w1.calls
                { DiskSize := c1.DiskSize, InstallerApp := c1.InstallerApp }).1
              RamSize := "2G", CPUCount := 2
              Name := "anka-disk-base-" ++ String.mk suffix } :: rest := by
  obtain ⟨-, hinst, hsrc, -, hdisk⟩ := hsame
  have hempty2 : c2.SourceVMName = "" := hsrc.trans hempty
  have hdp : diskParams c2 = diskParams c1 := by simp [diskParams, hinst, hdisk]
  have hbase : baseName w2 = baseName w1 := by simp [baseName, hrand, hdrawn]
  have hcp : createParams c2 client w2 = createParams c1 client w1 := by
    simp [createParams, hdp, hbase, hcalls]
  rw [Run_run c1 client w1 hcfg1 hcl1 hui1, Run_run c2 client w2 hcfg2 hcl2 hui2,
    if_pos hempty, if_pos hempty2, hdp, hcp, hbase, ← hcalls]
  split
  · next e he =>
    refine ⟨_, _, _, rfl, rfl, ?_, pickedRunes w1.rand w1.drawn 10, [],
      pickedRunes_length _ _ _, pickedRunes_mem _ _ _, rfl⟩
    simp [worldAtCreate, hdp, hcp, hcalls]
  · next he =>
    obtain ⟨a, v1', v2', h1, h2, heq⟩ := RunFromDescribe_calls_congr client (baseName w1)
      { worldAtCreate c1 client w1 with
        ui := (worldAtCreate c1 client w1).ui ++
          [UiMsg.Say ("VM " ++ baseName w1 ++ " was created")] }
      { worldAtCreate c2 client w2 with
        ui := (worldAtCreate c2 client w2).ui ++
          [UiMsg.Say ("VM " ++ baseName w1 ++ " was created")] }
      (by simp [worldAtCreate, hdp, hcp, hcalls])
      (by simp [worldAtCreate, hrand])
      (by simp [worldAtCreate, hdrawn])
    obtain ⟨a', v', h1', ⟨rest, hrest, -⟩, -, -⟩ := RunFromDescribe_summary client (baseName w1)
      { worldAtCreate c1 client w1 with
        ui := (worldAtCreate c1 client w1).ui ++
          [UiMsg.Say ("VM " ++ baseName w1 ++ " was created")] }
    rw [h1] at h1'
    cases h1'
    refine ⟨a, v1', v2', h1, h2, heq, pickedRunes w1.rand w1.drawn 10,
      Call.Describe (baseName w1) :: rest,
      pickedRunes_length _ _ _, pickedRunes_mem _ _ _, ?_⟩
    rw [hrest]
    simp [worldAtCreate, diskParams, createParams, baseName]

theorem Run_create_ignores_ram_and_cpu_witness :
    ((startWorld installerConfig okClient).bag.Get "config" = some (.config installerConfig) ∧
      (startWorld largeConfig okClient).bag.Get "config" = some (.config largeConfig) ∧
      installerConfig.SourceVMName = "" ∧
      largeConfig.RamSize ≠ installerConfig.RamSize ∧
      largeConfig.CPUCount ≠ installerConfig.CPUCount) ∧
    ∃ a w1' w2', Run (startWorld installerConfig okClient) = some (a, w1') ∧
      Run (startWorld largeConfig okClient) = some (a, w2') ∧ w1'.calls = w2'.calls ∧
      ∃ suffix rest, suffix.length = 10 ∧ (∀ c ∈ suffix, c ∈ letters) ∧
        w1'.calls = (startWorld installerConfig okClient).calls ++
          Call.CreateDisk { DiskSize := installerConfig.DiskSize
                            InstallerApp := installerConfig.InstallerApp } ::
          Call.Create
            { ImageID := (okClient.CreateDisk (startWorld installerConfig okClient).calls
                { DiskSize := installerConfig.DiskSize
                  InstallerApp := installerConfig.InstallerApp }).1
              RamSize := "2G", CPUCount := 2
              Name := "anka-disk-base-" ++ String.mk suffix } :: rest :=
  ⟨⟨rfl, rfl, rfl, by decide, by decide⟩,
    Run_create_ignores_ram_and_cpu installerConfig largeConfig okClient
      (startWorld installerConfig okClient) (startWorld largeConfig okClient)
      rfl rfl rfl rfl rfl rfl rfl ⟨rfl, rfl, rfl, rfl, rfl⟩ rfl rfl rfl⟩

end Anka
